import Mathlib

/-!
Verification of the MCH2022 RP2040 coprocessor driver (src/rp2040.c) against its
specification.  The C code is shallowly embedded: each driver function becomes a
Lean function over an explicit device state (the `RP2040` struct), an I2C bus
oracle (`Bus`), and returns its `esp_err_t` result together with the list of bus
transactions it performed.  Machine integers are `Nat` with explicit `% 256`
(resp. `% 2 ^ 16`, `% 2 ^ 32`) where the C code stores into a fixed-width field.
-/

/-- The distinct `esp_err_t` failure codes the driver can produce or propagate.
`fail` is `ESP_FAIL`, `invalidVersion` is `ESP_ERR_INVALID_VERSION`,
`noMem` is `ESP_ERR_NO_MEM`, `timeout` stands for a transport-level error code
returned by the underlying I2C driver. -/
inductive EspError where
  | fail
  | invalidVersion
  | noMem
  | timeout
  deriving DecidableEq, Repr

/-- A single I2C bus transaction performed by the driver: a register read of a
given length, or a register write with its payload bytes. -/
inductive Txn where
  | rd (reg : Nat) (len : Nat)
  | wr (reg : Nat) (payload : List Nat)
  deriving DecidableEq, Repr

/-- The bus/companion-device oracle: what `i2c_master_transmit_receive` and
`i2c_master_transmit` answer for a given register access.  `.error e` models a
transport failure (timeout, NACK, bus error). -/
structure Bus where
  read : Nat → Nat → Except EspError (List Nat)
  write : Nat → List Nat → Except EspError Unit

/-- The `RP2040` device struct (rp2040.h): the fields the driver code uses.
`i2c_semaphore` models whether `i2c_semaphore != NULL`. -/
structure RP2040 where
  i2c_semaphore : Bool
  pin_interrupt : Int
  _fw_version : Nat
  _gpio_direction : Nat
  _gpio_value : Nat
  deriving DecidableEq, Repr

/-- Modelled from the spec: the register addresses come from the header
rp2040.h, which is not among the sources; only their identity as fixed,
distinct register addresses is used by the claims. -/
def RP2040_REG_FW_VER : Nat := 0x00

def RP2040_REG_GPIO_DIR : Nat := 0x01

def RP2040_REG_GPIO_IN : Nat := 0x02

def RP2040_REG_GPIO_OUT : Nat := 0x03

def RP2040_REG_LCD_BACKLIGHT : Nat := 0x04

def RP2040_REG_FPGA : Nat := 0x05

def RP2040_REG_INPUT1 : Nat := 0x06

def RP2040_REG_CHARGING_STATE : Nat := 0x0A

def RP2040_REG_ADC_VALUE_VBAT_LO : Nat := 0x0B

def RP2040_REG_ADC_VALUE_VUSB_LO : Nat := 0x0D

def RP2040_REG_USB : Nat := 0x0F

def RP2040_REG_BL_TRIGGER : Nat := 0x10

def RP2040_REG_WEBUSB_MODE : Nat := 0x11

def RP2040_REG_CRASH_DEBUG : Nat := 0x12

def RP2040_REG_UID0 : Nat := 0x13

def RP2040_REG_IR_ADDRESS_LO : Nat := 0x1B

def RP2040_REG_RESET_ATTEMPTED : Nat := 0x1F

def RP2040_REG_RESET_LOCK : Nat := 0x20

def RP2040_REG_WS2812_MODE : Nat := 0x21

def RP2040_REG_WS2812_LENGTH : Nat := 0x22

def RP2040_REG_WS2812_TRIGGER : Nat := 0x23

def RP2040_REG_WS2812_LED0_DATA0 : Nat := 0x40

def RP2040_REG_ADC_VALUE_TEMP_LO : Nat := 0x70

def RP2040_REG_MSC_CONTROL : Nat := 0x72

def RP2040_REG_MSC_STATE : Nat := 0x73

def RP2040_REG_MSC0_BLOCK_COUNT_LO_A : Nat := 0x74

def RP2040_REG_MSC0_BLOCK_SIZE_LO : Nat := 0x78

def RP2040_REG_MSC1_BLOCK_COUNT_LO_A : Nat := 0x7A

def RP2040_REG_MSC1_BLOCK_SIZE_LO : Nat := 0x7E

def RP2040_BL_REG_BL_VER : Nat := 0x90

def RP2040_BL_REG_BL_STATE : Nat := 0x91

def RP2040_BL_REG_BL_CTRL : Nat := 0x92

/-- First byte of a read buffer, as the `uint8_t` the C code stores it into. -/
def byte0 (bytes : List Nat) : Nat := bytes.headD 0 % 256

/-- A two-byte little-endian buffer interpreted as the `uint16_t` it was
`memcpy`-ed into (the ESP32 is little-endian). -/
def le16 (bytes : List Nat) : Nat :=
  match bytes with
  | [b0, b1] => b0 % 256 + 256 * (b1 % 256)
  | _ => 0

/-- A four-byte little-endian buffer interpreted as the `uint32_t` it was
read into (`(uint8_t*) &state`, ESP32 little-endian). -/
def le32 (bytes : List Nat) : Nat :=
  match bytes with
  | [b0, b1, b2, b3] =>
      b0 % 256 + 256 * (b1 % 256) + 65536 * (b2 % 256) + 16777216 * (b3 % 256)
  | _ => 0

/-- The little-endian byte image of a `uint16_t` value, as passed to
`rp2040_write_reg` via `(uint8_t*) &value` with length 2. -/
def u16_bytes (value : Nat) : List Nat := [value % 256, value / 256 % 256]

/-- The little-endian byte image of a `uint32_t` value, as passed to
`rp2040_write_reg` via `(uint8_t*) &value` with length 4. -/
def u32_bytes (value : Nat) : List Nat :=
  [value % 256, value / 256 % 256, value / 65536 % 256, value / 16777216 % 256]

/-- `rp2040_read_reg`: takes the semaphore when configured, performs one
`i2c_master_transmit_receive`, and gives the semaphore back.  On a transport
error `ESP_RETURN_ON_ERROR` returns immediately, so the `xSemaphoreGive` that
follows the transaction is skipped.  Result: (`esp_err_t` with the read bytes,
whether the semaphore is still held at return, the bus transactions). -/
def rp2040_read_reg (bus : Bus) (device : RP2040) (reg : Nat) (value_len : Nat) :
    Except EspError (List Nat) × Bool × List Txn :=
  match bus.read reg value_len with
  | .error e => (.error e, device.i2c_semaphore, [Txn.rd reg value_len])
  | .ok value => (.ok value, false, [Txn.rd reg value_len])

/-- `rp2040_write_reg`: builds the frame `[reg] ++ value`, takes the semaphore
when configured, performs one `i2c_master_transmit`, and gives the semaphore
back.  As in `rp2040_read_reg`, a transport error returns early through
`ESP_RETURN_ON_ERROR`, skipping the `xSemaphoreGive`. -/
def rp2040_write_reg (bus : Bus) (device : RP2040) (reg : Nat) (value : List Nat) :
    Except EspError Unit × Bool × List Txn :=
  match bus.write reg value with
  | .error e => (.error e, device.i2c_semaphore, [Txn.wr reg value])
  | .ok _ => (.ok (), false, [Txn.wr reg value])

/-- Projection used by the accessors: the callers of `rp2040_read_reg` and
`rp2040_write_reg` only see the `esp_err_t` result (the semaphore lives in the
environment); the transaction log is kept for the proofs. -/
def dropSem {α : Type} (r : Except EspError α × Bool × List Txn) :
    Except EspError α × List Txn :=
  (r.1, r.2.2)

/-- `rp2040_get_firmware_version`: reads the version register and caches the
byte into `_fw_version` on success. -/
def rp2040_get_firmware_version (bus : Bus) (device : RP2040) :
    Except EspError Nat × RP2040 × List Txn :=
  match rp2040_read_reg bus device RP2040_REG_FW_VER 1 with
  | (.error e, _, t) => (.error e, device, t)
  | (.ok bytes, _, t) =>
      (.ok (byte0 bytes), { device with _fw_version := byte0 bytes }, t)

/-- `rp2040_get_bootloader_version` (bootloader bank, requires `0xFF`). -/
def rp2040_get_bootloader_version (bus : Bus) (device : RP2040) :
    Except EspError Nat × List Txn :=
  if device._fw_version ≠ 0xFF then (.error .fail, [])
  else
    match rp2040_read_reg bus device RP2040_BL_REG_BL_VER 1 with
    | (.error e, _, t) => (.error e, t)
    | (.ok bytes, _, t) => (.ok (byte0 bytes), t)

/-- `rp2040_get_bootloader_state` (bootloader bank, requires `0xFF`). -/
def rp2040_get_bootloader_state (bus : Bus) (device : RP2040) :
    Except EspError Nat × List Txn :=
  if device._fw_version ≠ 0xFF then (.error .fail, [])
  else
    match rp2040_read_reg bus device RP2040_BL_REG_BL_STATE 1 with
    | (.error e, _, t) => (.error e, t)
    | (.ok bytes, _, t) => (.ok (byte0 bytes), t)

/-- `rp2040_set_bootloader_ctrl` (bootloader bank, requires `0xFF`). -/
def rp2040_set_bootloader_ctrl (bus : Bus) (device : RP2040) (action : Nat) :
    Except EspError Unit × List Txn :=
  if device._fw_version ≠ 0xFF then (.error .fail, [])
  else dropSem (rp2040_write_reg bus device RP2040_BL_REG_BL_CTRL [action % 256])

/-- `rp2040_reboot_to_bootloader` (application bank, minimum version 0x01). -/
def rp2040_reboot_to_bootloader (bus : Bus) (device : RP2040) :
    Except EspError Unit × List Txn :=
  if device._fw_version < 0x01 ∨ device._fw_version = 0xFF then (.error .fail, [])
  else dropSem (rp2040_write_reg bus device RP2040_REG_BL_TRIGGER [0xBE])

/-- `rp2040_get_gpio_dir`: gated at 0x01; performs a fresh read of the GPIO
direction register, refreshes the `_gpio_direction` cache, and returns the
requested bit of the refreshed cache. -/
def rp2040_get_gpio_dir (bus : Bus) (device : RP2040) (gpio : Nat) :
    Except EspError Bool × RP2040 × List Txn :=
  if device._fw_version < 0x01 ∨ device._fw_version = 0xFF then
    (.error .fail, device, [])
  else
    match rp2040_read_reg bus device RP2040_REG_GPIO_DIR 1 with
    | (.error e, _, t) => (.error e, device, t)
    | (.ok bytes, _, t) =>
        let device := { device with _gpio_direction := byte0 bytes }
        (.ok (((device._gpio_direction >>> gpio) &&& 0x01) == 1), device, t)

/-- `rp2040_set_gpio_dir`: gated at 0x01; updates the cached direction byte
(`|= 1UL << gpio` or `&= ~(1UL << gpio)`, stored back into the `uint8_t`
field), then writes the whole cached byte to the direction register.
`unsigned long` is 32 bits on the ESP32 target, so the complement mask is
`2 ^ 32 - 1`; for `gpio >= 32` the C shift is undefined behavior, so the
embedding is faithful only for `gpio < 32`. -/
def rp2040_set_gpio_dir (bus : Bus) (device : RP2040) (gpio : Nat)
    (direction : Bool) : Except EspError Unit × RP2040 × List Txn :=
  if device._fw_version < 0x01 ∨ device._fw_version = 0xFF then
    (.error .fail, device, [])
  else
    let gd :=
      if direction then (device._gpio_direction ||| (1 <<< gpio)) % 256
      else (device._gpio_direction &&& ((2 ^ 32 - 1) ^^^ (1 <<< gpio))) % 256
    let device := { device with _gpio_direction := gd }
    match rp2040_write_reg bus device RP2040_REG_GPIO_DIR [gd] with
    | (res, _, t) => (res, device, t)

/-- `rp2040_get_gpio_value`: gated at 0x01; reads the live GPIO input register
(not the cached output mirror) and returns the requested bit. -/
def rp2040_get_gpio_value (bus : Bus) (device : RP2040) (gpio : Nat) :
    Except EspError Bool × List Txn :=
  if device._fw_version < 0x01 ∨ device._fw_version = 0xFF then (.error .fail, [])
  else
    match rp2040_read_reg bus device RP2040_REG_GPIO_IN 1 with
    | (.error e, _, t) => (.error e, t)
    | (.ok bytes, _, t) => (.ok (((byte0 bytes >>> gpio) &&& 0x01) == 1), t)

/-- `rp2040_set_gpio_value`: gated at 0x01; updates the cached output byte
(same 32-bit `unsigned long` shift/mask as `rp2040_set_gpio_dir`, undefined
in C and hence not faithfully embedded for `gpio >= 32`) and writes the whole
cached byte to the GPIO output register. -/
def rp2040_set_gpio_value (bus : Bus) (device : RP2040) (gpio : Nat)
    (value : Bool) : Except EspError Unit × RP2040 × List Txn :=
  if device._fw_version < 0x01 ∨ device._fw_version = 0xFF then
    (.error .fail, device, [])
  else
    let gv :=
      if value then (device._gpio_value ||| (1 <<< gpio)) % 256
      else (device._gpio_value &&& ((2 ^ 32 - 1) ^^^ (1 <<< gpio))) % 256
    let device := { device with _gpio_value := gv }
    match rp2040_write_reg bus device RP2040_REG_GPIO_OUT [gv] with
    | (res, _, t) => (res, device, t)

/-- `rp2040_get_lcd_backlight`: gated at 0x01, fails with `ESP_FAIL` when
denied. -/
def rp2040_get_lcd_backlight (bus : Bus) (device : RP2040) :
    Except EspError Nat × List Txn :=
  if device._fw_version < 0x01 ∨ device._fw_version = 0xFF then (.error .fail, [])
  else
    match rp2040_read_reg bus device RP2040_REG_LCD_BACKLIGHT 1 with
    | (.error e, _, t) => (.error e, t)
    | (.ok bytes, _, t) => (.ok (byte0 bytes), t)

/-- `rp2040_set_lcd_backlight`: gated at 0x01, but a denied call returns
`ESP_OK` without touching the bus (the source comment says
"Ignore if unsupported"). -/
def rp2040_set_lcd_backlight (bus : Bus) (device : RP2040) (brightness : Nat) :
    Except EspError Unit × List Txn :=
  if device._fw_version < 0x01 ∨ device._fw_version = 0xFF then (.ok (), [])
  else dropSem (rp2040_write_reg bus device RP2040_REG_LCD_BACKLIGHT [brightness % 256])

/-- `rp2040_read_buttons`: gated at 0x01; reads two bytes into a `uint16_t`. -/
def rp2040_read_buttons (bus : Bus) (device : RP2040) :
    Except EspError Nat × List Txn :=
  if device._fw_version < 0x01 ∨ device._fw_version = 0xFF then (.error .fail, [])
  else
    match rp2040_read_reg bus device RP2040_REG_INPUT1 2 with
    | (.error e, _, t) => (.error e, t)
    | (.ok bytes, _, t) => (.ok (le16 bytes), t)

/-- `rp2040_get_uid`: gated at 0x01; reads the 8-byte unique id. -/
def rp2040_get_uid (bus : Bus) (device : RP2040) :
    Except EspError (List Nat) × List Txn :=
  if device._fw_version < 0x01 ∨ device._fw_version = 0xFF then (.error .fail, [])
  else dropSem (rp2040_read_reg bus device RP2040_REG_UID0 8)

/-- `conversion_factor = 3.3f / (1 << 12)`: the 12-bit-ADC-with-3.3 V-vref
conversion factor.  The C `float` arithmetic is modelled as exact rational
arithmetic. -/
def conversion_factor : ℚ := (33 / 10) / 2 ^ 12

/-- `rp2040_read_vbat_raw`: gated at 0x02; reads the raw 16-bit battery ADC
code. -/
def rp2040_read_vbat_raw (bus : Bus) (device : RP2040) :
    Except EspError Nat × List Txn :=
  if device._fw_version < 0x02 ∨ device._fw_version = 0xFF then (.error .fail, [])
  else
    match rp2040_read_reg bus device RP2040_REG_ADC_VALUE_VBAT_LO 2 with
    | (.error e, _, t) => (.error e, t)
    | (.ok bytes, _, t) => (.ok (le16 bytes), t)

/-- `rp2040_read_vbat`: raw battery ADC code converted to a voltage
(`raw * conversion_factor * 2`, the 2 for the 100k/100k divider). -/
def rp2040_read_vbat (bus : Bus) (device : RP2040) :
    Except EspError ℚ × List Txn :=
  match rp2040_read_vbat_raw bus device with
  | (.error e, t) => (.error e, t)
  | (.ok raw, t) => (.ok ((raw : ℚ) * conversion_factor * 2), t)

/-- `rp2040_read_vusb_raw`: gated at 0x02; reads the raw 16-bit USB ADC code. -/
def rp2040_read_vusb_raw (bus : Bus) (device : RP2040) :
    Except EspError Nat × List Txn :=
  if device._fw_version < 0x02 ∨ device._fw_version = 0xFF then (.error .fail, [])
  else
    match rp2040_read_reg bus device RP2040_REG_ADC_VALUE_VUSB_LO 2 with
    | (.error e, _, t) => (.error e, t)
    | (.ok bytes, _, t) => (.ok (le16 bytes), t)

/-- `rp2040_read_vusb`: raw USB ADC code converted to a voltage. -/
def rp2040_read_vusb (bus : Bus) (device : RP2040) :
    Except EspError ℚ × List Txn :=
  match rp2040_read_vusb_raw bus device with
  | (.error e, t) => (.error e, t)
  | (.ok raw, t) => (.ok ((raw : ℚ) * conversion_factor * 2), t)

/-- `rp2040_read_temp`: gated at 0x02. -/
def rp2040_read_temp (bus : Bus) (device : RP2040) :
    Except EspError Nat × List Txn :=
  if device._fw_version < 0x02 ∨ device._fw_version = 0xFF then (.error .fail, [])
  else
    match rp2040_read_reg bus device RP2040_REG_ADC_VALUE_TEMP_LO 2 with
    | (.error e, _, t) => (.error e, t)
    | (.ok bytes, _, t) => (.ok (le16 bytes), t)

/-- `rp2040_get_charging`: gated at 0x02. -/
def rp2040_get_charging (bus : Bus) (device : RP2040) :
    Except EspError Nat × List Txn :=
  if device._fw_version < 0x02 ∨ device._fw_version = 0xFF then (.error .fail, [])
  else
    match rp2040_read_reg bus device RP2040_REG_CHARGING_STATE 1 with
    | (.error e, _, t) => (.error e, t)
    | (.ok bytes, _, t) => (.ok (byte0 bytes), t)

/-- `rp2040_get_usb`: gated at 0x01. -/
def rp2040_get_usb (bus : Bus) (device : RP2040) :
    Except EspError Nat × List Txn :=
  if device._fw_version < 0x01 ∨ device._fw_version = 0xFF then (.error .fail, [])
  else
    match rp2040_read_reg bus device RP2040_REG_USB 1 with
    | (.error e, _, t) => (.error e, t)
    | (.ok bytes, _, t) => (.ok (byte0 bytes), t)

/-- `rp2040_get_webusb_mode`: gated at 0x02. -/
def rp2040_get_webusb_mode (bus : Bus) (device : RP2040) :
    Except EspError Nat × List Txn :=
  if device._fw_version < 0x02 ∨ device._fw_version = 0xFF then (.error .fail, [])
  else
    match rp2040_read_reg bus device RP2040_REG_WEBUSB_MODE 1 with
    | (.error e, _, t) => (.error e, t)
    | (.ok bytes, _, t) => (.ok (byte0 bytes), t)

/-- `rp2040_exit_webusb_mode`: gated at 0x0E. -/
def rp2040_exit_webusb_mode (bus : Bus) (device : RP2040) :
    Except EspError Unit × List Txn :=
  if device._fw_version < 0x0E ∨ device._fw_version = 0xFF then (.error .fail, [])
  else dropSem (rp2040_write_reg bus device RP2040_REG_WEBUSB_MODE [0])

/-- `rp2040_get_crash_state`: gated at 0x06. -/
def rp2040_get_crash_state (bus : Bus) (device : RP2040) :
    Except EspError Nat × List Txn :=
  if device._fw_version < 0x06 ∨ device._fw_version = 0xFF then (.error .fail, [])
  else
    match rp2040_read_reg bus device RP2040_REG_CRASH_DEBUG 1 with
    | (.error e, _, t) => (.error e, t)
    | (.ok bytes, _, t) => (.ok (byte0 bytes), t)

/-- `rp2040_ir_send`: gated at 0x06; packs address low byte, address high
byte, command, and a trigger byte into one 4-byte write. -/
def rp2040_ir_send (bus : Bus) (device : RP2040) (address : Nat) (command : Nat) :
    Except EspError Unit × List Txn :=
  if device._fw_version < 0x06 ∨ device._fw_version = 0xFF then (.error .fail, [])
  else
    dropSem (rp2040_write_reg bus device RP2040_REG_IR_ADDRESS_LO
      [address &&& 0xFF, (address >>> 8) % 256, command % 256, 0x01])

/-- `rp2040_get_reset_attempted`: gated at 0x08. -/
def rp2040_get_reset_attempted (bus : Bus) (device : RP2040) :
    Except EspError Nat × List Txn :=
  if device._fw_version < 0x08 ∨ device._fw_version = 0xFF then (.error .fail, [])
  else
    match rp2040_read_reg bus device RP2040_REG_RESET_ATTEMPTED 1 with
    | (.error e, _, t) => (.error e, t)
    | (.ok bytes, _, t) => (.ok (byte0 bytes), t)

/-- `rp2040_set_reset_attempted`: gated at 0x08. -/
def rp2040_set_reset_attempted (bus : Bus) (device : RP2040)
    (reset_attempted : Nat) : Except EspError Unit × List Txn :=
  if device._fw_version < 0x08 ∨ device._fw_version = 0xFF then (.error .fail, [])
  else
    dropSem (rp2040_write_reg bus device RP2040_REG_RESET_ATTEMPTED
      [reset_attempted % 256])

/-- `rp2040_set_reset_lock`: gated at 0x08. -/
def rp2040_set_reset_lock (bus : Bus) (device : RP2040) (lock : Nat) :
    Except EspError Unit × List Txn :=
  if device._fw_version < 0x08 ∨ device._fw_version = 0xFF then (.error .fail, [])
  else dropSem (rp2040_write_reg bus device RP2040_REG_RESET_LOCK [lock % 256])

/-- `rp2040_set_ws2812_mode`: gated at 0x09. -/
def rp2040_set_ws2812_mode (bus : Bus) (device : RP2040) (mode : Nat) :
    Except EspError Unit × List Txn :=
  if device._fw_version < 0x09 ∨ device._fw_version = 0xFF then (.error .fail, [])
  else dropSem (rp2040_write_reg bus device RP2040_REG_WS2812_MODE [mode % 256])

/-- `rp2040_set_ws2812_data`: gated at 0x09; also requires `position < 10`
(checked before any bus access), then writes the 4 value bytes at the
per-LED register block. -/
def rp2040_set_ws2812_data (bus : Bus) (device : RP2040) (position : Nat)
    (value : Nat) : Except EspError Unit × List Txn :=
  if device._fw_version < 0x09 ∨ device._fw_version = 0xFF then (.error .fail, [])
  else if 10 ≤ position then (.error .fail, [])
  else
    dropSem (rp2040_write_reg bus device
      (RP2040_REG_WS2812_LED0_DATA0 + position * 4) (u32_bytes value))

/-- `rp2040_set_ws2812_length`: gated at 0x09. -/
def rp2040_set_ws2812_length (bus : Bus) (device : RP2040) (length : Nat) :
    Except EspError Unit × List Txn :=
  if device._fw_version < 0x09 ∨ device._fw_version = 0xFF then (.error .fail, [])
  else dropSem (rp2040_write_reg bus device RP2040_REG_WS2812_LENGTH [length % 256])

/-- `rp2040_ws2812_trigger`: gated at 0x09. -/
def rp2040_ws2812_trigger (bus : Bus) (device : RP2040) :
    Except EspError Unit × List Txn :=
  if device._fw_version < 0x09 ∨ device._fw_version = 0xFF then (.error .fail, [])
  else dropSem (rp2040_write_reg bus device RP2040_REG_WS2812_TRIGGER [0])

/-- `rp2040_set_msc_control`: gated at 0x0D. -/
def rp2040_set_msc_control (bus : Bus) (device : RP2040) (value : Nat) :
    Except EspError Unit × List Txn :=
  if device._fw_version < 0x0D ∨ device._fw_version = 0xFF then (.error .fail, [])
  else dropSem (rp2040_write_reg bus device RP2040_REG_MSC_CONTROL [value % 256])

/-- `rp2040_get_msc_state`: gated at 0x0D. -/
def rp2040_get_msc_state (bus : Bus) (device : RP2040) :
    Except EspError Nat × List Txn :=
  if device._fw_version < 0x0D ∨ device._fw_version = 0xFF then (.error .fail, [])
  else
    match rp2040_read_reg bus device RP2040_REG_MSC_STATE 1 with
    | (.error e, _, t) => (.error e, t)
    | (.ok bytes, _, t) => (.ok (byte0 bytes), t)

/-- `rp2040_set_msc_block_count`: gated at 0x0D; also requires `lun <= 1`
(checked before any bus access). -/
def rp2040_set_msc_block_count (bus : Bus) (device : RP2040) (lun : Nat)
    (value : Nat) : Except EspError Unit × List Txn :=
  if device._fw_version < 0x0D ∨ device._fw_version = 0xFF then (.error .fail, [])
  else if 1 < lun then (.error .fail, [])
  else
    dropSem (rp2040_write_reg bus device
      (if lun = 1 then RP2040_REG_MSC1_BLOCK_COUNT_LO_A
       else RP2040_REG_MSC0_BLOCK_COUNT_LO_A) (u32_bytes value))

/-- `rp2040_set_msc_block_size`: gated at 0x0D; also requires `lun <= 1`. -/
def rp2040_set_msc_block_size (bus : Bus) (device : RP2040) (lun : Nat)
    (value : Nat) : Except EspError Unit × List Txn :=
  if device._fw_version < 0x0D ∨ device._fw_version = 0xFF then (.error .fail, [])
  else if 1 < lun then (.error .fail, [])
  else
    dropSem (rp2040_write_reg bus device
      (if lun = 1 then RP2040_REG_MSC1_BLOCK_SIZE_LO
       else RP2040_REG_MSC0_BLOCK_SIZE_LO) (u16_bytes value))

/-- One consumed wake signal of `rp2040_intr_task`: read 4 bytes from the
combined status register; on failure invoke no handler; on success split the
32-bit value into the high-16 changed mask and the low-16 current values and
collect the handler invocations `(index, value_bit)` for the indices 0..15
whose changed-mask bit is set, in loop order. -/
def rp2040_intr_iteration (bus : Bus) (device : RP2040) :
    List (Nat × Bool) × List Txn :=
  match rp2040_read_reg bus device RP2040_REG_INPUT1 4 with
  | (.error _, _, t) => ([], t)
  | (.ok bytes, _, t) =>
      let state := le32 bytes
      let interrupt := state >>> 16
      let values := state &&& 0xFFFF
      ((List.range 16).filterMap fun index =>
        if (interrupt >>> index) &&& 0x01 = 1 then
          some (index, ((values >>> index) &&& 0x01) == 1)
        else none, t)

/-- `rp2040_init`: attaches the bus device (`ESP_ERROR_CHECK`, which aborts
rather than returns on failure, is modelled as succeeding), reads and checks
the firmware version, primes the two GPIO caches, creates the interrupt
trigger semaphore (`semCreateOk` models `xSemaphoreCreateBinary` not running
out of memory), and, when an interrupt pin is configured, registers the ISR
(`isrAddRes` models `gpio_isr_handler_add`, `gpioConfigRes` models
`gpio_config`) and starts the worker task. -/
def rp2040_init (bus : Bus) (device : RP2040) (semCreateOk : Bool)
    (isrAddRes gpioConfigRes : Except EspError Unit) :
    Except EspError Unit × RP2040 × List Txn :=
  match rp2040_get_firmware_version bus device with
  | (.error e, d1, t0) => (.error e, d1, t0)
  | (.ok _, d1, t0) =>
      if d1._fw_version < 0x01 then (.error .invalidVersion, d1, t0)
      else
        match rp2040_read_reg bus d1 RP2040_REG_GPIO_DIR 1 with
        | (.error e, _, t1) => (.error e, d1, t0 ++ t1)
        | (.ok dirBytes, _, t1) =>
            let d2 := { d1 with _gpio_direction := byte0 dirBytes }
            match rp2040_read_reg bus d2 RP2040_REG_GPIO_OUT 1 with
            | (.error e, _, t2) => (.error e, d2, t0 ++ t1 ++ t2)
            | (.ok outBytes, _, t2) =>
                let d3 := { d2 with _gpio_value := byte0 outBytes }
                if ¬semCreateOk then (.error .noMem, d3, t0 ++ t1 ++ t2)
                else if 0 ≤ d3.pin_interrupt then
                  match isrAddRes with
                  | .error e => (.error e, d3, t0 ++ t1 ++ t2)
                  | .ok _ =>
                      match gpioConfigRes with
                      | .error e => (.error e, d3, t0 ++ t1 ++ t2)
                      | .ok _ => (.ok (), d3, t0 ++ t1 ++ t2)
                else (.ok (), d3, t0 ++ t1 ++ t2)

/-- A bus on which every transaction succeeds and every read returns the
requested number of bytes, all equal to `b`. -/
def busConst (b : Nat) : Bus :=
  { read := fun _ len => .ok (List.replicate len b)
    write := fun _ _ => .ok () }

/-- A bus on which every transaction fails with a transport timeout. -/
def busAllFail : Bus :=
  { read := fun _ _ => .error .timeout
    write := fun _ _ => .error .timeout }

/-- A bus whose reads return the status bytes `[0x01, 0x00, 0x03, 0x00]`
(little-endian `0x00030001`: changed mask `0x0003`, values `0x0001`). -/
def busIntrEx : Bus :=
  { read := fun _ _ => .ok [0x01, 0x00, 0x03, 0x00]
    write := fun _ _ => .ok () }

/-- A bus whose reads return `[0xFF, 0x0F]` (little-endian `0x0FFF = 4095`,
the full-scale 12-bit ADC code). -/
def busVbatMax : Bus :=
  { read := fun _ _ => .ok [0xFF, 0x0F]
    write := fun _ _ => .ok () }

/-- A device state with the given cached firmware version, no semaphore, no
interrupt pin, and zeroed GPIO caches. -/
def mkDev (v : Nat) : RP2040 :=
  { i2c_semaphore := false
    pin_interrupt := -1
    _fw_version := v
    _gpio_direction := 0
    _gpio_value := 0 }

/-- A device state with a configured bus semaphore. -/
def devSem : RP2040 := { mkDev 1 with i2c_semaphore := true }

/-- Both branches of `rp2040_read_reg` perform exactly the one read
transaction. -/
theorem read_reg_txns (bus : Bus) (d : RP2040) (reg len : Nat) :
    (rp2040_read_reg bus d reg len).2.2 = [Txn.rd reg len] := by
  unfold rp2040_read_reg
  cases bus.read reg len <;> rfl

/-- Both branches of `rp2040_write_reg` perform exactly the one write
transaction. -/
theorem write_reg_txns (bus : Bus) (d : RP2040) (reg : Nat) (v : List Nat) :
    (rp2040_write_reg bus d reg v).2.2 = [Txn.wr reg v] := by
  unfold rp2040_write_reg
  cases bus.write reg v <;> rfl

set_option maxRecDepth 100000 in
/-- Setting a bit of a byte-sized cache the way the driver does and reading
the same bit back yields the bit that was set (in-range indices). -/
theorem cache_bit_roundtrip : ∀ c < 256, ∀ g < 8,
    ((((c ||| (1 <<< g)) % 256) >>> g) &&& 1 == 1) = true ∧
    ((((c &&& ((2 ^ 32 - 1) ^^^ (1 <<< g))) % 256) >>> g) &&& 1 == 1) = false := by
  decide

/-- C2: if a bus lock is configured, `rp2040_read_reg` and `rp2040_write_reg`
release it on every exit path.  The code violates this: on a transport error
`ESP_RETURN_ON_ERROR` returns before `xSemaphoreGive` runs, so the semaphore
is still held after a failed transaction (first two conjuncts), while a
successful transaction does release it (last two conjuncts). -/
theorem reg_lock_leak_on_error :
    (rp2040_read_reg busAllFail devSem RP2040_REG_FW_VER 1).2.1 = true ∧
    (rp2040_write_reg busAllFail devSem RP2040_REG_FPGA [0]).2.1 = true ∧
    (rp2040_read_reg (busConst 0) devSem RP2040_REG_FW_VER 1).2.1 = false ∧
    (rp2040_write_reg (busConst 0) devSem RP2040_REG_FPGA [0]).2.1 = false :=
  ⟨rfl, rfl, rfl, rfl⟩

/-- C6: a denied `rp2040_set_lcd_backlight` (version below 0x01 or bootloader
sentinel 0xFF) returns success with zero bus transactions, while the denied
get on the same family fails with `ESP_FAIL`. -/
theorem set_lcd_backlight_silent_noop (bus : Bus) (d : RP2040) (brightness : Nat)
    (h : d._fw_version < 0x01 ∨ d._fw_version = 0xFF) :
    rp2040_set_lcd_backlight bus d brightness = (.ok (), []) ∧
    rp2040_get_lcd_backlight bus d = (.error .fail, []) := by
  constructor
  · unfold rp2040_set_lcd_backlight
    rw [if_pos h]
  · unfold rp2040_get_lcd_backlight
    rw [if_pos h]

/-- Witness for C6 at firmware version 0. -/
theorem set_lcd_backlight_silent_noop_witness :
    rp2040_set_lcd_backlight (busConst 0) (mkDev 0) 100 = (.ok (), []) ∧
    rp2040_get_lcd_backlight (busConst 0) (mkDev 0) = (.error .fail, []) :=
  set_lcd_backlight_silent_noop (busConst 0) (mkDev 0) 100 (by decide)

/-- C7: with an adequate firmware version, the WS2812 per-LED data write fails
with `ESP_FAIL` and no bus access for `position >= 10` and proceeds to the bus
for `position == 9`; the mass-storage block-count and block-size writes fail
with `ESP_FAIL` and no bus access for `lun > 1` and proceed for `lun <= 1`. -/
theorem bounded_param_ops (bus : Bus) (d : RP2040) (position lun value : Nat)
    (hff : d._fw_version ≠ 0xFF) :
    (0x09 ≤ d._fw_version →
      (10 ≤ position →
        rp2040_set_ws2812_data bus d position value = (.error .fail, [])) ∧
      (rp2040_set_ws2812_data bus d 9 value).2 ≠ []) ∧
    (0x0D ≤ d._fw_version →
      (1 < lun →
        rp2040_set_msc_block_count bus d lun value = (.error .fail, []) ∧
        rp2040_set_msc_block_size bus d lun value = (.error .fail, [])) ∧
      (lun ≤ 1 →
        (rp2040_set_msc_block_count bus d lun value).2 ≠ [] ∧
        (rp2040_set_msc_block_size bus d lun value).2 ≠ [])) := by
  constructor
  · intro h9
    have hc : ¬(d._fw_version < 0x09 ∨ d._fw_version = 0xFF) := by omega
    constructor
    · intro hpos
      unfold rp2040_set_ws2812_data
      rw [if_neg hc, if_pos hpos]
    · unfold rp2040_set_ws2812_data
      rw [if_neg hc, if_neg (by omega : ¬(10 ≤ 9))]
      simp [dropSem, write_reg_txns]
  · intro hD
    have hc : ¬(d._fw_version < 0x0D ∨ d._fw_version = 0xFF) := by omega
    constructor
    · intro hlun
      constructor
      · unfold rp2040_set_msc_block_count
        rw [if_neg hc, if_pos hlun]
      · unfold rp2040_set_msc_block_size
        rw [if_neg hc, if_pos hlun]
    · intro hlun
      constructor
      · unfold rp2040_set_msc_block_count
        rw [if_neg hc, if_neg (by omega : ¬(1 < lun))]
        simp [dropSem, write_reg_txns]
      · unfold rp2040_set_msc_block_size
        rw [if_neg hc, if_neg (by omega : ¬(1 < lun))]
        simp [dropSem, write_reg_txns]

/-- Witness for C7 at firmware version 0x0D, `position = 10` and `9`,
`lun = 2` and `1`. -/
theorem bounded_param_ops_witness :
    rp2040_set_ws2812_data (busConst 0) (mkDev 0x0D) 10 7 = (.error .fail, []) ∧
    (rp2040_set_ws2812_data (busConst 0) (mkDev 0x0D) 9 7).2 ≠ [] ∧
    rp2040_set_msc_block_count (busConst 0) (mkDev 0x0D) 2 7 = (.error .fail, []) ∧
    (rp2040_set_msc_block_count (busConst 0) (mkDev 0x0D) 1 7).2 ≠ [] := by
  have h := bounded_param_ops (busConst 0) (mkDev 0x0D) 10 2 7 (by decide)
  have h1 := bounded_param_ops (busConst 0) (mkDev 0x0D) 9 1 7 (by decide)
  refine ⟨(h.1 (by decide)).1 (by decide), (h1.1 (by decide)).2, ?_, ?_⟩
  · exact ((h.2 (by decide)).1 (by decide)).1
  · exact ((h1.2 (by decide)).2 (by decide)).1

/-- C5 fails on the code: `rp2040_set_gpio_dir` and `rp2040_set_gpio_value`
update the cached byte before issuing the bus write, and a failed write does
not roll it back.  At firmware version 1, cache byte 0, `gpio = 0`,
requested value `true`, and a bus that times out, both calls return the
transport error while the targeted cache byte is left at 1, not its
pre-call value 0. -/
theorem gpio_cache_rollback_cex :
    (rp2040_set_gpio_dir busAllFail (mkDev 1) 0 true).1 = .error .timeout ∧
    (rp2040_set_gpio_dir busAllFail (mkDev 1) 0 true).2.1._gpio_direction = 1 ∧
    (mkDev 1)._gpio_direction = 0 ∧
    (rp2040_set_gpio_value busAllFail (mkDev 1) 0 true).1 = .error .timeout ∧
    (rp2040_set_gpio_value busAllFail (mkDev 1) 0 true).2.1._gpio_value = 1 ∧
    (mkDev 1)._gpio_value = 0 :=
  ⟨rfl, rfl, rfl, rfl, rfl, rfl⟩

/-- C5 (amended): when `rp2040_set_gpio_dir` or `rp2040_set_gpio_value`
returns a transport error, the cached byte it targets keeps the
optimistically applied update — the targeted bit equals the requested value,
not its pre-call value; the cache is never rolled back by a failed write. -/
theorem gpio_cache_no_rollback (bus : Bus) (d : RP2040) (gpio : Nat) (b : Bool)
    (e e2 : EspError) (hg : gpio < 8)
    (hdir : d._gpio_direction < 256) (hval : d._gpio_value < 256)
    (hv : 0x01 ≤ d._fw_version) (hff : d._fw_version ≠ 0xFF) :
    ((rp2040_set_gpio_dir bus d gpio b).1 = .error e →
      ((((rp2040_set_gpio_dir bus d gpio b).2.1._gpio_direction >>> gpio) &&& 1)
        == 1) = b) ∧
    ((rp2040_set_gpio_value bus d gpio b).1 = .error e2 →
      ((((rp2040_set_gpio_value bus d gpio b).2.1._gpio_value >>> gpio) &&& 1)
        == 1) = b) := by
  have hcond : ¬(d._fw_version < 0x01 ∨ d._fw_version = 0xFF) := by omega
  constructor
  · intro h
    unfold rp2040_set_gpio_dir
    rw [if_neg hcond]
    cases b
    · exact (cache_bit_roundtrip d._gpio_direction hdir gpio hg).2
    · exact (cache_bit_roundtrip d._gpio_direction hdir gpio hg).1
  · intro h
    unfold rp2040_set_gpio_value
    rw [if_neg hcond]
    cases b
    · exact (cache_bit_roundtrip d._gpio_value hval gpio hg).2
    · exact (cache_bit_roundtrip d._gpio_value hval gpio hg).1

/-- Witness for the amended C5: failed write at `gpio = 0`, requested value
`true`; the cache bit reads back as `true`. -/
theorem gpio_cache_no_rollback_witness :
    (rp2040_set_gpio_dir busAllFail (mkDev 1) 0 true).1 = .error .timeout ∧
    ((((rp2040_set_gpio_dir busAllFail (mkDev 1) 0 true).2.1._gpio_direction >>> 0)
      &&& 1) == 1) = true ∧
    ((((rp2040_set_gpio_value busAllFail (mkDev 1) 0 true).2.1._gpio_value >>> 0)
      &&& 1) == 1) = true := by
  have h := gpio_cache_no_rollback busAllFail (mkDev 1) 0 true .timeout .timeout
    (by decide) (by decide) (by decide) (by decide) (by decide)
  exact ⟨rfl, h.1 rfl, h.2 rfl⟩

/-- C8: on a successful raw read, `rp2040_read_vbat` and `rp2040_read_vusb`
convert the raw 16-bit ADC code to `raw * (3.3 / 4096) * 2` (`float`
arithmetic modelled as exact rational arithmetic); the full-scale code 4095
converts to `2 * 3.3 * 4095 / 4096 = 27027 / 4096` and code 0 converts
to 0. -/
theorem adc_conversion (bus : Bus) (d : RP2040) (vb vu : List Nat)
    (hv : 0x02 ≤ d._fw_version) (hff : d._fw_version ≠ 0xFF)
    (hb : bus.read RP2040_REG_ADC_VALUE_VBAT_LO 2 = .ok vb)
    (hu : bus.read RP2040_REG_ADC_VALUE_VUSB_LO 2 = .ok vu) :
    (rp2040_read_vbat bus d).1 = .ok ((le16 vb : ℚ) * (33 / 10 / 4096) * 2) ∧
    (rp2040_read_vusb bus d).1 = .ok ((le16 vu : ℚ) * (33 / 10 / 4096) * 2) ∧
    (4095 : ℚ) * (33 / 10 / 4096) * 2 = 27027 / 4096 ∧
    (0 : ℚ) * (33 / 10 / 4096) * 2 = 0 := by
  have hcond : ¬(d._fw_version < 0x02 ∨ d._fw_version = 0xFF) := by omega
  refine ⟨?_, ?_, by norm_num, by norm_num⟩
  · unfold rp2040_read_vbat rp2040_read_vbat_raw
    rw [if_neg hcond]
    simp [rp2040_read_reg, hb, conversion_factor]
    norm_num
  · unfold rp2040_read_vusb rp2040_read_vusb_raw
    rw [if_neg hcond]
    simp [rp2040_read_reg, hu, conversion_factor]
    norm_num

/-- C4: for an in-range GPIO bit index, with the version gate passing, the
set call succeeding, and no concurrent writer — so the follow-up direction
read returns the byte the set wrote, and the live input register mirrors the
just-written output byte — a subsequent same-bit get returns the just-set
value, even though the direction get refreshes the cache from a fresh
register read and the value get reads the input register rather than the
cached output mirror. -/
theorem gpio_set_get_roundtrip (bus bus2 : Bus) (d : RP2040) (gpio : Nat)
    (dir v : Bool) (hg : gpio < 8)
    (hdir : d._gpio_direction < 256) (hval : d._gpio_value < 256)
    (hv1 : 0x01 ≤ d._fw_version) (hff : d._fw_version ≠ 0xFF)
    (hsetdir : (rp2040_set_gpio_dir bus d gpio dir).1 = .ok ())
    (hsetval : (rp2040_set_gpio_value bus d gpio v).1 = .ok ())
    (hbus2dir : bus2.read RP2040_REG_GPIO_DIR 1 =
      .ok [(rp2040_set_gpio_dir bus d gpio dir).2.1._gpio_direction])
    (hbus2in : bus2.read RP2040_REG_GPIO_IN 1 =
      .ok [(rp2040_set_gpio_value bus d gpio v).2.1._gpio_value]) :
    (rp2040_get_gpio_dir bus2 (rp2040_set_gpio_dir bus d gpio dir).2.1 gpio).1
      = .ok dir ∧
    (rp2040_get_gpio_value bus2 (rp2040_set_gpio_value bus d gpio v).2.1 gpio).1
      = .ok v := by
  have hcond : ¬(d._fw_version < 0x01 ∨ d._fw_version = 0xFF) := by omega
  set gd := (if dir then (d._gpio_direction ||| (1 <<< gpio)) % 256
    else (d._gpio_direction &&& ((2 ^ 32 - 1) ^^^ (1 <<< gpio))) % 256) with hgd
  set gv := (if v then (d._gpio_value ||| (1 <<< gpio)) % 256
    else (d._gpio_value &&& ((2 ^ 32 - 1) ^^^ (1 <<< gpio))) % 256) with hgv
  have hd1 : (rp2040_set_gpio_dir bus d gpio dir).2.1 =
      { d with _gpio_direction := gd } := by
    unfold rp2040_set_gpio_dir
    rw [if_neg hcond]
  have hd2 : (rp2040_set_gpio_value bus d gpio v).2.1 =
      { d with _gpio_value := gv } := by
    unfold rp2040_set_gpio_value
    rw [if_neg hcond]
  have hgd256 : gd < 256 := by
    rw [hgd]; cases dir <;> simp <;> exact Nat.mod_lt _ (by norm_num)
  have hgv256 : gv < 256 := by
    rw [hgv]; cases v <;> simp <;> exact Nat.mod_lt _ (by norm_num)
  have hgdbit : (((gd >>> gpio) &&& 1) == 1) = dir := by
    rw [hgd]; cases dir
    · exact (cache_bit_roundtrip d._gpio_direction hdir gpio hg).2
    · exact (cache_bit_roundtrip d._gpio_direction hdir gpio hg).1
  have hgvbit : (((gv >>> gpio) &&& 1) == 1) = v := by
    rw [hgv]; cases v
    · exact (cache_bit_roundtrip d._gpio_value hval gpio hg).2
    · exact (cache_bit_roundtrip d._gpio_value hval gpio hg).1
  rw [hd1] at hbus2dir ⊢
  rw [hd2] at hbus2in ⊢
  constructor
  · unfold rp2040_get_gpio_dir
    rw [if_neg (by simpa using hcond)]
    simp only [rp2040_read_reg]
    simp only at hbus2dir
    rw [hbus2dir]
    simp only [byte0, List.headD]
    rw [Nat.mod_eq_of_lt hgd256, hgdbit]
  · unfold rp2040_get_gpio_value
    rw [if_neg (by simpa using hcond)]
    simp only [rp2040_read_reg]
    simp only at hbus2in
    rw [hbus2in]
    simp only [byte0, List.headD]
    rw [Nat.mod_eq_of_lt hgv256, hgvbit]

/-- Witness for C4 at `gpio = 3`, both values `true`: the set writes byte 8,
the follow-up bus returns byte 8, and both gets return `true`. -/
theorem gpio_set_get_roundtrip_witness :
    (rp2040_get_gpio_dir (busConst 8)
      (rp2040_set_gpio_dir (busConst 0) (mkDev 1) 3 true).2.1 3).1 = .ok true ∧
    (rp2040_get_gpio_value (busConst 8)
      (rp2040_set_gpio_value (busConst 0) (mkDev 1) 3 true).2.1 3).1 = .ok true :=
  gpio_set_get_roundtrip (busConst 0) (busConst 8) (mkDev 1) 3 true true
    (by decide) (by decide) (by decide) (by decide) (by decide) rfl rfl rfl rfl

/-- C9: after a successful firmware-version read, `rp2040_init` fails with
`ESP_ERR_INVALID_VERSION` exactly when the reported version is below 0x01
(performing no further bus access in that case) and continues initialization
with the GPIO-cache reads for every version at or above 0x01 — in particular
the bootloader sentinel 0xFF is not rejected.  The transport and GPIO oracles
are assumed never to return `ESP_ERR_INVALID_VERSION` themselves. -/
theorem init_version_check (bus : Bus) (d : RP2040) (semOk : Bool)
    (isrRes cfgRes : Except EspError Unit) (v : Nat)
    (hv : bus.read RP2040_REG_FW_VER 1 = .ok [v]) (hv256 : v < 256)
    (hnoiv : ∀ reg len, bus.read reg len ≠ .error .invalidVersion)
    (hisr : isrRes ≠ .error .invalidVersion)
    (hcfg : cfgRes ≠ .error .invalidVersion) :
    ((rp2040_init bus d semOk isrRes cfgRes).1 = .error .invalidVersion ↔
      v < 0x01) ∧
    (v < 0x01 → (rp2040_init bus d semOk isrRes cfgRes).2.2 =
      [Txn.rd RP2040_REG_FW_VER 1]) ∧
    (0x01 ≤ v →
      Txn.rd RP2040_REG_GPIO_DIR 1 ∈ (rp2040_init bus d semOk isrRes cfgRes).2.2) := by
  have he1 := hnoiv RP2040_REG_GPIO_DIR 1
  have he2 := hnoiv RP2040_REG_GPIO_OUT 1
  unfold rp2040_init rp2040_get_firmware_version rp2040_read_reg
  rw [hv]
  simp only [byte0, List.headD, Nat.mod_eq_of_lt hv256]
  by_cases h1 : v < 1
  · simp [h1]
  · rcases hdir : bus.read RP2040_REG_GPIO_DIR 1 with e | dirBytes
    · rw [hdir] at he1
      simp [h1, he1, show ¬(e = .invalidVersion) from by
        intro hc; exact he1 (by rw [hc])]
    · rcases hout : bus.read RP2040_REG_GPIO_OUT 1 with e2 | outBytes
      · rw [hout] at he2
        simp [h1, show ¬(e2 = .invalidVersion) from by
          intro hc; exact he2 (by rw [hc])]
      · cases semOk
        · simp [h1]
        · by_cases hpin : (0 : Int) ≤ d.pin_interrupt
          · rcases isrRes with e3 | u
            · simp [h1, hpin, show ¬(e3 = .invalidVersion) from by
                intro hc; rw [hc] at hisr; exact hisr rfl]
            · rcases cfgRes with e4 | u2
              · simp [h1, hpin, show ¬(e4 = .invalidVersion) from by
                  intro hc; rw [hc] at hcfg; exact hcfg rfl]
              · simp [h1, hpin]
          · simp [h1, hpin]

/-- Witness for C9: a bus reporting version 0xFF is not rejected and init
proceeds to the GPIO-cache reads; a bus reporting version 0 is rejected with
`ESP_ERR_INVALID_VERSION` after only the version read. -/
theorem init_version_check_witness :
    ¬((rp2040_init (busConst 0xFF) (mkDev 0) true (.ok ()) (.ok ())).1 =
      .error .invalidVersion) ∧
    Txn.rd RP2040_REG_GPIO_DIR 1 ∈
      (rp2040_init (busConst 0xFF) (mkDev 0) true (.ok ()) (.ok ())).2.2 ∧
    (rp2040_init (busConst 0) (mkDev 0) true (.ok ()) (.ok ())).1 =
      .error .invalidVersion ∧
    (rp2040_init (busConst 0) (mkDev 0) true (.ok ()) (.ok ())).2.2 =
      [Txn.rd RP2040_REG_FW_VER 1] := by
  have h := init_version_check (busConst 0xFF) (mkDev 0) true (.ok ()) (.ok ())
    0xFF rfl (by decide) (by intro reg len; simp [busConst]) (by simp) (by simp)
  have h0 := init_version_check (busConst 0) (mkDev 0) true (.ok ()) (.ok ())
    0 rfl (by decide) (by intro reg len; simp [busConst]) (by simp) (by simp)
  exact ⟨fun hc => by have := h.1.mp hc; omega, h.2.2 (by decide),
    h0.1.mpr (by decide), h0.2.1 (by decide)⟩

/-- The C test `(x >> k) & 0x01`, used as a boolean, agrees with
`Nat.testBit`. -/
theorem shift_and_one_eq_testBit (x k : Nat) :
    ((x >>> k) &&& 1 == 1) = x.testBit k := by
  rw [Nat.and_one_is_mod, Nat.shiftRight_eq_div_pow, Nat.testBit_to_div_mod]
  rcases Nat.mod_two_eq_zero_or_one (x / 2 ^ k) with h | h <;> simp [h]

/-- The dispatcher's changed-mask test on the high half of the status word is
the test of bit `16 + k` of the whole word. -/
theorem shift16_cond (x k : Nat) :
    (((x >>> 16) >>> k) &&& 1 = 1) ↔ x.testBit (16 + k) = true := by
  rw [← Nat.shiftRight_add, Nat.testBit_to_div_mod, Nat.and_one_is_mod,
    Nat.shiftRight_eq_div_pow]
  simp

/-- The dispatcher's value-bit extraction from the masked low half of the
status word is the test of bit `k` of the whole word, for `k < 16`. -/
theorem mask16_bit (x k : Nat) (hk : k < 16) :
    (((x &&& 0xFFFF) >>> k) &&& 1 == 1) = x.testBit k := by
  rw [shift_and_one_eq_testBit, show (0xFFFF : Nat) = 2 ^ 16 - 1 from by norm_num,
    Nat.testBit_land, Nat.testBit_two_pow_sub_one]
  simp [hk]

/-- C3: each consumed wake signal performs exactly one 4-byte status read; on
success the handler is invoked exactly once per index `0..15` whose
changed-mask bit (high 16 bits) is set, in ascending index order, with the
corresponding current-value bit (low 16 bits); on a failed read no handler is
invoked.  Changed-mask `0x0003` with value bits `0x0001` yields exactly
`(0, true)` then `(1, false)`. -/
theorem intr_dispatch (bus : Bus) (d : RP2040) :
    (∀ e, bus.read RP2040_REG_INPUT1 4 = .error e →
      rp2040_intr_iteration bus d = ([], [Txn.rd RP2040_REG_INPUT1 4])) ∧
    (∀ bytes, bus.read RP2040_REG_INPUT1 4 = .ok bytes →
      (rp2040_intr_iteration bus d).2 = [Txn.rd RP2040_REG_INPUT1 4] ∧
      (rp2040_intr_iteration bus d).1 = (List.range 16).filterMap (fun i =>
        if (le32 bytes).testBit (16 + i) then some (i, (le32 bytes).testBit i)
        else none) ∧
      List.Pairwise (fun p q => p.1 < q.1) (rp2040_intr_iteration bus d).1 ∧
      (∀ i b, (i, b) ∈ (rp2040_intr_iteration bus d).1 ↔
        i < 16 ∧ (le32 bytes).testBit (16 + i) = true ∧
          b = (le32 bytes).testBit i)) ∧
    rp2040_intr_iteration busIntrEx d =
      ([(0, true), (1, false)], [Txn.rd RP2040_REG_INPUT1 4]) := by
  refine ⟨?_, ?_, rfl⟩
  · intro e he
    unfold rp2040_intr_iteration rp2040_read_reg
    rw [he]
  · intro bytes hb
    have hchar : (rp2040_intr_iteration bus d).1 =
        (List.range 16).filterMap (fun i =>
          if (le32 bytes).testBit (16 + i) then
            some (i, (le32 bytes).testBit i) else none) := by
      unfold rp2040_intr_iteration rp2040_read_reg
      rw [hb]
      apply List.filterMap_congr
      intro i hi
      rw [List.mem_range] at hi
      rw [mask16_bit _ _ hi]
      exact if_congr (shift16_cond _ _) rfl rfl
    have htxn : (rp2040_intr_iteration bus d).2 = [Txn.rd RP2040_REG_INPUT1 4] := by
      unfold rp2040_intr_iteration rp2040_read_reg
      rw [hb]
    refine ⟨htxn, hchar, ?_, ?_⟩
    · rw [hchar]
      rw [List.pairwise_filterMap]
      apply List.Pairwise.imp ?_ (List.pairwise_lt_range 16)
      intro a b hab x hx y hy
      split_ifs at hx hy <;>
        first
        | exact absurd hx (Option.not_mem_none x)
        | exact absurd hy (Option.not_mem_none y)
        | (simp only [Option.mem_def, Option.some.injEq] at hx hy
           rw [← hx, ← hy]
           exact hab)
    · intro i b
      rw [hchar]
      simp only [List.mem_filterMap, List.mem_range]
      constructor
      · rintro ⟨a, ha, hfa⟩
        split_ifs at hfa with hc
        simp only [Option.some.injEq, Prod.mk.injEq] at hfa
        obtain ⟨rfl, rfl⟩ := hfa
        exact ⟨ha, hc, rfl⟩
      · rintro ⟨hi, hc, rfl⟩
        exact ⟨i, hi, by simp [hc]⟩

/-- Witness for C3: a failing bus yields no invocations; the example status
read yields its characterization at index 0. -/
theorem intr_dispatch_witness :
    rp2040_intr_iteration busAllFail (mkDev 1) =
      ([], [Txn.rd RP2040_REG_INPUT1 4]) ∧
    (rp2040_intr_iteration busIntrEx (mkDev 1)).2 =
      [Txn.rd RP2040_REG_INPUT1 4] ∧
    ((0, true) ∈ (rp2040_intr_iteration busIntrEx (mkDev 1)).1 ↔
      0 < 16 ∧ (le32 [1, 0, 3, 0]).testBit 16 = true ∧
        true = (le32 [1, 0, 3, 0]).testBit 0) := by
  have hf := (intr_dispatch busAllFail (mkDev 1)).1 .timeout rfl
  have ho := (intr_dispatch busIntrEx (mkDev 1)).2.1 [1, 0, 3, 0] rfl
  exact ⟨hf, ho.1, ho.2.2.2 0 true⟩

/-- C1 as stated fails on one operation of the table: a denied LCD-backlight
set (firmware version 0, below the family minimum 0x01) returns success
(`ESP_OK`) with zero bus transactions instead of failing with the
unsupported-operation error. -/
theorem capability_gate_cex :
    (rp2040_set_lcd_backlight (busConst 0) (mkDev 0) 100).1 = .ok () ∧
    (rp2040_set_lcd_backlight (busConst 0) (mkDev 0) 100).2 = [] ∧
    ¬((rp2040_set_lcd_backlight (busConst 0) (mkDev 0) 100).1 =
      .error .fail) :=
  ⟨rfl, rfl, fun hc => Except.noConfusion hc⟩

/-- C1 (amended): the capability gate table.  For each non-bootloader family,
a call with cached version `v < v_min` or `v = 0xFF` performs zero bus
transactions and fails with `ESP_FAIL` — except the LCD-backlight set, which
returns success with zero bus transactions — while a call with `v_min ≤ v`
and `v ≠ 0xFF` (and in-range arguments) proceeds to the bus; the bootloader
operations proceed to the bus exactly when `v = 0xFF` and otherwise fail with
`ESP_FAIL` and zero bus transactions. -/
theorem capability_gate_table (bus : Bus) (d : RP2040) :
    ((d._fw_version < 0x01 ∨ d._fw_version = 0xFF) →
      rp2040_reboot_to_bootloader bus d = (.error .fail, []) ∧
      (∀ g, rp2040_get_gpio_dir bus d g = (.error .fail, d, [])) ∧
      (∀ g b, rp2040_set_gpio_dir bus d g b = (.error .fail, d, [])) ∧
      (∀ g, rp2040_get_gpio_value bus d g = (.error .fail, [])) ∧
      (∀ g b, rp2040_set_gpio_value bus d g b = (.error .fail, d, [])) ∧
      rp2040_get_lcd_backlight bus d = (.error .fail, []) ∧
      (∀ b, rp2040_set_lcd_backlight bus d b = (.ok (), [])) ∧
      rp2040_get_usb bus d = (.error .fail, []) ∧
      rp2040_read_buttons bus d = (.error .fail, []) ∧
      rp2040_get_uid bus d = (.error .fail, [])) ∧
    ((0x01 ≤ d._fw_version ∧ d._fw_version ≠ 0xFF) →
      (rp2040_reboot_to_bootloader bus d).2 ≠ [] ∧
      (∀ g, (rp2040_get_gpio_dir bus d g).2.2 ≠ []) ∧
      (∀ g b, (rp2040_set_gpio_dir bus d g b).2.2 ≠ []) ∧
      (∀ g, (rp2040_get_gpio_value bus d g).2 ≠ []) ∧
      (∀ g b, (rp2040_set_gpio_value bus d g b).2.2 ≠ []) ∧
      (rp2040_get_lcd_backlight bus d).2 ≠ [] ∧
      (∀ b, (rp2040_set_lcd_backlight bus d b).2 ≠ []) ∧
      (rp2040_get_usb bus d).2 ≠ [] ∧
      (rp2040_read_buttons bus d).2 ≠ [] ∧
      (rp2040_get_uid bus d).2 ≠ []) ∧
    ((d._fw_version < 0x02 ∨ d._fw_version = 0xFF) →
      rp2040_read_vbat_raw bus d = (.error .fail, []) ∧
      rp2040_read_vusb_raw bus d = (.error .fail, []) ∧
      rp2040_read_temp bus d = (.error .fail, []) ∧
      rp2040_get_charging bus d = (.error .fail, []) ∧
      rp2040_get_webusb_mode bus d = (.error .fail, [])) ∧
    ((0x02 ≤ d._fw_version ∧ d._fw_version ≠ 0xFF) →
      (rp2040_read_vbat_raw bus d).2 ≠ [] ∧
      (rp2040_read_vusb_raw bus d).2 ≠ [] ∧
      (rp2040_read_temp bus d).2 ≠ [] ∧
      (rp2040_get_charging bus d).2 ≠ [] ∧
      (rp2040_get_webusb_mode bus d).2 ≠ []) ∧
    ((d._fw_version < 0x06 ∨ d._fw_version = 0xFF) →
      rp2040_get_crash_state bus d = (.error .fail, []) ∧
      (∀ a c, rp2040_ir_send bus d a c = (.error .fail, []))) ∧
    ((0x06 ≤ d._fw_version ∧ d._fw_version ≠ 0xFF) →
      (rp2040_get_crash_state bus d).2 ≠ [] ∧
      (∀ a c, (rp2040_ir_send bus d a c).2 ≠ [])) ∧
    ((d._fw_version < 0x08 ∨ d._fw_version = 0xFF) →
      rp2040_get_reset_attempted bus d = (.error .fail, []) ∧
      (∀ x, rp2040_set_reset_attempted bus d x = (.error .fail, [])) ∧
      (∀ x, rp2040_set_reset_lock bus d x = (.error .fail, []))) ∧
    ((0x08 ≤ d._fw_version ∧ d._fw_version ≠ 0xFF) →
      (rp2040_get_reset_attempted bus d).2 ≠ [] ∧
      (∀ x, (rp2040_set_reset_attempted bus d x).2 ≠ []) ∧
      (∀ x, (rp2040_set_reset_lock bus d x).2 ≠ [])) ∧
    ((d._fw_version < 0x09 ∨ d._fw_version = 0xFF) →
      (∀ m, rp2040_set_ws2812_mode bus d m = (.error .fail, [])) ∧
      (∀ p val, rp2040_set_ws2812_data bus d p val = (.error .fail, [])) ∧
      (∀ l, rp2040_set_ws2812_length bus d l = (.error .fail, [])) ∧
      rp2040_ws2812_trigger bus d = (.error .fail, [])) ∧
    ((0x09 ≤ d._fw_version ∧ d._fw_version ≠ 0xFF) →
      (∀ m, (rp2040_set_ws2812_mode bus d m).2 ≠ []) ∧
      (∀ p val, p < 10 → (rp2040_set_ws2812_data bus d p val).2 ≠ []) ∧
      (∀ l, (rp2040_set_ws2812_length bus d l).2 ≠ []) ∧
      (rp2040_ws2812_trigger bus d).2 ≠ []) ∧
    ((d._fw_version < 0x0D ∨ d._fw_version = 0xFF) →
      (∀ x, rp2040_set_msc_control bus d x = (.error .fail, [])) ∧
      rp2040_get_msc_state bus d = (.error .fail, []) ∧
      (∀ lun val, rp2040_set_msc_block_count bus d lun val = (.error .fail, [])) ∧
      (∀ lun val, rp2040_set_msc_block_size bus d lun val = (.error .fail, []))) ∧
    ((0x0D ≤ d._fw_version ∧ d._fw_version ≠ 0xFF) →
      (∀ x, (rp2040_set_msc_control bus d x).2 ≠ []) ∧
      (rp2040_get_msc_state bus d).2 ≠ [] ∧
      (∀ lun val, lun ≤ 1 → (rp2040_set_msc_block_count bus d lun val).2 ≠ []) ∧
      (∀ lun val, lun ≤ 1 → (rp2040_set_msc_block_size bus d lun val).2 ≠ [])) ∧
    ((d._fw_version < 0x0E ∨ d._fw_version = 0xFF) →
      rp2040_exit_webusb_mode bus d = (.error .fail, [])) ∧
    ((0x0E ≤ d._fw_version ∧ d._fw_version ≠ 0xFF) →
      (rp2040_exit_webusb_mode bus d).2 ≠ []) ∧
    (d._fw_version = 0xFF →
      (rp2040_get_bootloader_version bus d).2 ≠ [] ∧
      (rp2040_get_bootloader_state bus d).2 ≠ [] ∧
      (∀ a, (rp2040_set_bootloader_ctrl bus d a).2 ≠ [])) ∧
    (d._fw_version ≠ 0xFF →
      rp2040_get_bootloader_version bus d = (.error .fail, []) ∧
      rp2040_get_bootloader_state bus d = (.error .fail, []) ∧
      (∀ a, rp2040_set_bootloader_ctrl bus d a = (.error .fail, []))) := by
  refine ⟨?_, ?_, ?_, ?_, ?_, ?_, ?_, ?_, ?_, ?_, ?_, ?_, ?_, ?_, ?_, ?_⟩
  · intro h
    refine ⟨?_, ?_, ?_, ?_, ?_, ?_, ?_, ?_, ?_, ?_⟩
    · unfold rp2040_reboot_to_bootloader; rw [if_pos h]
    · intro g; unfold rp2040_get_gpio_dir; rw [if_pos h]
    · intro g b; unfold rp2040_set_gpio_dir; rw [if_pos h]
    · intro g; unfold rp2040_get_gpio_value; rw [if_pos h]
    · intro g b; unfold rp2040_set_gpio_value; rw [if_pos h]
    · unfold rp2040_get_lcd_backlight; rw [if_pos h]
    · intro b; unfold rp2040_set_lcd_backlight; rw [if_pos h]
    · unfold rp2040_get_usb; rw [if_pos h]
    · unfold rp2040_read_buttons; rw [if_pos h]
    · unfold rp2040_get_uid; rw [if_pos h]
  · rintro ⟨h1, h2⟩
    have hc : ¬(d._fw_version < 0x01 ∨ d._fw_version = 0xFF) := by omega
    refine ⟨?_, ?_, ?_, ?_, ?_, ?_, ?_, ?_, ?_, ?_⟩
    · unfold rp2040_reboot_to_bootloader
      rw [if_neg hc]
      simp [dropSem, write_reg_txns]
    · intro g
      unfold rp2040_get_gpio_dir
      rw [if_neg hc]
      cases hr : bus.read RP2040_REG_GPIO_DIR 1 <;>
        simp [rp2040_read_reg, hr]
    · intro g b
      unfold rp2040_set_gpio_dir
      rw [if_neg hc]
      simp only [rp2040_write_reg]
      split <;> simp_all
    · intro g
      unfold rp2040_get_gpio_value
      rw [if_neg hc]
      cases hr : bus.read RP2040_REG_GPIO_IN 1 <;>
        simp [rp2040_read_reg, hr]
    · intro g b
      unfold rp2040_set_gpio_value
      rw [if_neg hc]
      simp only [rp2040_write_reg]
      split <;> simp_all
    · unfold rp2040_get_lcd_backlight
      rw [if_neg hc]
      cases hr : bus.read RP2040_REG_LCD_BACKLIGHT 1 <;>
        simp [rp2040_read_reg, hr]
    · intro b
      unfold rp2040_set_lcd_backlight
      rw [if_neg hc]
      simp [dropSem, write_reg_txns]
    · unfold rp2040_get_usb
      rw [if_neg hc]
      cases hr : bus.read RP2040_REG_USB 1 <;>
        simp [rp2040_read_reg, hr]
    · unfold rp2040_read_buttons
      rw [if_neg hc]
      cases hr : bus.read RP2040_REG_INPUT1 2 <;>
        simp [rp2040_read_reg, hr]
    · unfold rp2040_get_uid
      rw [if_neg hc]
      simp [dropSem, read_reg_txns]
  · intro h
    refine ⟨?_, ?_, ?_, ?_, ?_⟩
    · unfold rp2040_read_vbat_raw; rw [if_pos h]
    · unfold rp2040_read_vusb_raw; rw [if_pos h]
    · unfold rp2040_read_temp; rw [if_pos h]
    · unfold rp2040_get_charging; rw [if_pos h]
    · unfold rp2040_get_webusb_mode; rw [if_pos h]
  · rintro ⟨h1, h2⟩
    have hc : ¬(d._fw_version < 0x02 ∨ d._fw_version = 0xFF) := by omega
    refine ⟨?_, ?_, ?_, ?_, ?_⟩
    · unfold rp2040_read_vbat_raw
      rw [if_neg hc]
      cases hr : bus.read RP2040_REG_ADC_VALUE_VBAT_LO 2 <;>
        simp [rp2040_read_reg, hr]
    · unfold rp2040_read_vusb_raw
      rw [if_neg hc]
      cases hr : bus.read RP2040_REG_ADC_VALUE_VUSB_LO 2 <;>
        simp [rp2040_read_reg, hr]
    · unfold rp2040_read_temp
      rw [if_neg hc]
      cases hr : bus.read RP2040_REG_ADC_VALUE_TEMP_LO 2 <;>
        simp [rp2040_read_reg, hr]
    · unfold rp2040_get_charging
      rw [if_neg hc]
      cases hr : bus.read RP2040_REG_CHARGING_STATE 1 <;>
        simp [rp2040_read_reg, hr]
    · unfold rp2040_get_webusb_mode
      rw [if_neg hc]
      cases hr : bus.read RP2040_REG_WEBUSB_MODE 1 <;>
        simp [rp2040_read_reg, hr]
  · intro h
    refine ⟨?_, ?_⟩
    · unfold rp2040_get_crash_state; rw [if_pos h]
    · intro a c; unfold rp2040_ir_send; rw [if_pos h]
  · rintro ⟨h1, h2⟩
    have hc : ¬(d._fw_version < 0x06 ∨ d._fw_version = 0xFF) := by omega
    refine ⟨?_, ?_⟩
    · unfold rp2040_get_crash_state
      rw [if_neg hc]
      cases hr : bus.read RP2040_REG_CRASH_DEBUG 1 <;>
        simp [rp2040_read_reg, hr]
    · intro a c
      unfold rp2040_ir_send
      rw [if_neg hc]
      simp [dropSem, write_reg_txns]
  · intro h
    refine ⟨?_, ?_, ?_⟩
    · unfold rp2040_get_reset_attempted; rw [if_pos h]
    · intro x; unfold rp2040_set_reset_attempted; rw [if_pos h]
    · intro x; unfold rp2040_set_reset_lock; rw [if_pos h]
  · rintro ⟨h1, h2⟩
    have hc : ¬(d._fw_version < 0x08 ∨ d._fw_version = 0xFF) := by omega
    refine ⟨?_, ?_, ?_⟩
    · unfold rp2040_get_reset_attempted
      rw [if_neg hc]
      cases hr : bus.read RP2040_REG_RESET_ATTEMPTED 1 <;>
        simp [rp2040_read_reg, hr]
    · intro x
      unfold rp2040_set_reset_attempted
      rw [if_neg hc]
      simp [dropSem, write_reg_txns]
    · intro x
      unfold rp2040_set_reset_lock
      rw [if_neg hc]
      simp [dropSem, write_reg_txns]
  · intro h
    refine ⟨?_, ?_, ?_, ?_⟩
    · intro m; unfold rp2040_set_ws2812_mode; rw [if_pos h]
    · intro p val; unfold rp2040_set_ws2812_data; rw [if_pos h]
    · intro l; unfold rp2040_set_ws2812_length; rw [if_pos h]
    · unfold rp2040_ws2812_trigger; rw [if_pos h]
  · rintro ⟨h1, h2⟩
    have hc : ¬(d._fw_version < 0x09 ∨ d._fw_version = 0xFF) := by omega
    refine ⟨?_, ?_, ?_, ?_⟩
    · intro m
      unfold rp2040_set_ws2812_mode
      rw [if_neg hc]
      simp [dropSem, write_reg_txns]
    · intro p val hp
      unfold rp2040_set_ws2812_data
      rw [if_neg hc, if_neg (by omega : ¬(10 ≤ p))]
      simp [dropSem, write_reg_txns]
    · intro l
      unfold rp2040_set_ws2812_length
      rw [if_neg hc]
      simp [dropSem, write_reg_txns]
    · unfold rp2040_ws2812_trigger
      rw [if_neg hc]
      simp [dropSem, write_reg_txns]
  · intro h
    refine ⟨?_, ?_, ?_, ?_⟩
    · intro x; unfold rp2040_set_msc_control; rw [if_pos h]
    · unfold rp2040_get_msc_state; rw [if_pos h]
    · intro lun val; unfold rp2040_set_msc_block_count; rw [if_pos h]
    · intro lun val; unfold rp2040_set_msc_block_size; rw [if_pos h]
  · rintro ⟨h1, h2⟩
    have hc : ¬(d._fw_version < 0x0D ∨ d._fw_version = 0xFF) := by omega
    refine ⟨?_, ?_, ?_, ?_⟩
    · intro x
      unfold rp2040_set_msc_control
      rw [if_neg hc]
      simp [dropSem, write_reg_txns]
    · unfold rp2040_get_msc_state
      rw [if_neg hc]
      cases hr : bus.read RP2040_REG_MSC_STATE 1 <;>
        simp [rp2040_read_reg, hr]
    · intro lun val hlun
      unfold rp2040_set_msc_block_count
      rw [if_neg hc, if_neg (by omega : ¬(1 < lun))]
      simp [dropSem, write_reg_txns]
    · intro lun val hlun
      unfold rp2040_set_msc_block_size
      rw [if_neg hc, if_neg (by omega : ¬(1 < lun))]
      simp [dropSem, write_reg_txns]
  · intro h
    unfold rp2040_exit_webusb_mode; rw [if_pos h]
  · rintro ⟨h1, h2⟩
    have hc : ¬(d._fw_version < 0x0E ∨ d._fw_version = 0xFF) := by omega
    unfold rp2040_exit_webusb_mode
    rw [if_neg hc]
    simp [dropSem, write_reg_txns]
  · intro h
    have hc : ¬(d._fw_version ≠ 0xFF) := not_not_intro h
    refine ⟨?_, ?_, ?_⟩
    · unfold rp2040_get_bootloader_version
      rw [if_neg hc]
      cases hr : bus.read RP2040_BL_REG_BL_VER 1 <;>
        simp [rp2040_read_reg, hr]
    · unfold rp2040_get_bootloader_state
      rw [if_neg hc]
      cases hr : bus.read RP2040_BL_REG_BL_STATE 1 <;>
        simp [rp2040_read_reg, hr]
    · intro a
      unfold rp2040_set_bootloader_ctrl
      rw [if_neg hc]
      simp [dropSem, write_reg_txns]
  · intro h
    refine ⟨?_, ?_, ?_⟩
    · unfold rp2040_get_bootloader_version; rw [if_pos h]
    · unfold rp2040_get_bootloader_state; rw [if_pos h]
    · intro a; unfold rp2040_set_bootloader_ctrl; rw [if_pos h]

/-- Witness for the amended C1 at representative versions: denial at 0 and 1,
admission at the family minima 2, 9 and at 0xFF for the bootloader bank. -/
theorem capability_gate_table_witness :
    rp2040_reboot_to_bootloader (busConst 0) (mkDev 0) = (.error .fail, []) ∧
    rp2040_set_lcd_backlight (busConst 0) (mkDev 0) 5 = (.ok (), []) ∧
    (rp2040_read_vbat_raw (busConst 0) (mkDev 2)).2 ≠ [] ∧
    rp2040_read_vbat_raw (busConst 0) (mkDev 1) = (.error .fail, []) ∧
    (rp2040_set_ws2812_data (busConst 0) (mkDev 9) 9 0).2 ≠ [] ∧
    rp2040_exit_webusb_mode (busConst 0) (mkDev 0x0D) = (.error .fail, []) ∧
    (rp2040_get_bootloader_version (busConst 0) (mkDev 0xFF)).2 ≠ [] ∧
    rp2040_get_bootloader_version (busConst 0) (mkDev 1) = (.error .fail, []) := by
  obtain ⟨a1, -, -, -, -, -, -, -, -, -, -, -, -, -, -, -⟩ :=
    capability_gate_table (busConst 0) (mkDev 0)
  obtain ⟨a1b, -, -, -, -, -, -, -, -, -, -, -, -, -, -, -⟩ :=
    capability_gate_table (busConst 0) (mkDev 0)
  obtain ⟨-, -, b3, -, -, -, -, -, -, -, -, -, -, -, -, b16⟩ :=
    capability_gate_table (busConst 0) (mkDev 1)
  obtain ⟨-, -, -, c4, -, -, -, -, -, -, -, -, -, -, -, -⟩ :=
    capability_gate_table (busConst 0) (mkDev 2)
  obtain ⟨-, -, -, -, -, -, -, -, -, e10, -, -, -, -, -, -⟩ :=
    capability_gate_table (busConst 0) (mkDev 9)
  obtain ⟨-, -, -, -, -, -, -, -, -, -, -, -, f13, -, -, -⟩ :=
    capability_gate_table (busConst 0) (mkDev 0x0D)
  obtain ⟨-, -, -, -, -, -, -, -, -, -, -, -, -, -, g15, -⟩ :=
    capability_gate_table (busConst 0) (mkDev 0xFF)
  refine ⟨(a1 (by decide)).1, (a1b (by decide)).2.2.2.2.2.2.1 5,
    (c4 (by decide)).1, (b3 (by decide)).1, (e10 (by decide)).2.1 9 0 (by decide),
    f13 (by decide), (g15 (by decide)).1, (b16 (by decide)).1⟩

/-- Witness for C8: the full-scale code `[0xFF, 0x0F]` (raw 4095) converts to
`27027 / 4096`; the zero code converts to 0. -/
theorem adc_conversion_witness :
    (rp2040_read_vbat busVbatMax (mkDev 2)).1 = .ok (27027 / 4096 : ℚ) ∧
    (rp2040_read_vusb busVbatMax (mkDev 2)).1 = .ok (27027 / 4096 : ℚ) ∧
    (rp2040_read_vbat (busConst 0) (mkDev 2)).1 = .ok (0 : ℚ) := by
  have h := adc_conversion busVbatMax (mkDev 2) [0xFF, 0x0F] [0xFF, 0x0F]
    (by decide) (by decide) rfl rfl
  have h0 := adc_conversion (busConst 0) (mkDev 2) [0, 0] [0, 0]
    (by decide) (by decide) rfl rfl
  refine ⟨?_, ?_, ?_⟩
  · rw [h.1]
    norm_num [le16]
  · rw [h.2.1]
    norm_num [le16]
  · rw [h0.1]
    norm_num [le16]
